import Mathlib

/-!
Shallow embedding of the Obsidian Mermaid renderer plugin
(`src/main.ts`, with the unnamed variant agreeing on every modelled path).

The plugin's own logic is orchestration: a one-time library bootstrap
guarded by a boolean flag (`initializeMermaid`), a per-block render
handler (`renderMermaid`) that appends DOM elements under a host-provided
output element, and two export actions (`exportAsSVG`, `exportAsPNG`)
that serialize the rendered SVG and write a file through the host vault.

External effects are modelled by explicit environments:
* `MermaidLib` — the mermaid library boundary (`initialize` may throw,
  indexed by invocation count; `parse`; `render`);
* `SVGExportEnv` / `PNGExportEnv` — the DOM query, the serializer,
  canvas-context availability, image decoding, blob encoding, the clock
  and the vault-write outcome.

DOM output is a small element tree `Elem` (tag, class, text, children);
`container.innerHTML = svg` is modelled as inserting one `svg` fragment
node carrying the markup string.  Canvas drawing is modelled as the
recorded operation list plus a pixel semantics `renderPixel`.

In `exportAsPNG` the TypeScript source returns a `new Promise` from
inside the `try` block without awaiting it, so rejections produced in
the image-load callback escape the function; the embedding keeps the
caught (synchronous) failures and the escaping (asynchronous) failures
apart via the `escaped` field of `PNGOutcome`.
-/

/-- A DOM element: tag, class attribute, text content, children. -/
inductive Elem where
  | node : String → String → String → List Elem → Elem

def Elem.tag : Elem → String
  | .node t _ _ _ => t

def Elem.cls : Elem → String
  | .node _ c _ _ => c

def Elem.text : Elem → String
  | .node _ _ s _ => s

def Elem.children : Elem → List Elem
  | .node _ _ _ cs => cs

mutual

/-- Whether an element or any descendant carries the `mermaid-error` class. -/
def Elem.containsErrorCls : Elem → Bool
  | .node _ c _ cs => c == "mermaid-error" || elemsContainErrorCls cs

/-- Whether any element of the list, or any of its descendants, carries
the `mermaid-error` class. -/
def elemsContainErrorCls : List Elem → Bool
  | [] => false
  | e :: es => e.containsErrorCls || elemsContainErrorCls es

end

/-- JavaScript `String.prototype.trim`: strip leading and trailing
whitespace.  (Lean's built-in `String.trim` is semantically the same on
the inputs of interest but is defined through substring primitives the
kernel cannot evaluate, so the direct list-based definition is used.) -/
def jsTrim (s : String) : String :=
  String.mk (((s.toList.dropWhile Char.isWhitespace).reverse.dropWhile
    Char.isWhitespace).reverse)

/-- JavaScript `path.includes("/")` for a single character. -/
def containsChar (s : String) (c : Char) : Bool := s.toList.contains c

/-- The plugin's only mutable state: the `mermaidInitialized` flag, plus a
ghost counter of how many times `mermaid.initialize` has been invoked. -/
structure PluginState where
  mermaidInitialized : Bool
  initCalls : Nat
deriving DecidableEq, Repr

/-- The mermaid library boundary.  `initThrows n` says whether the `n`-th
invocation of `mermaid.initialize` throws; `parse` and `render` either
throw (`.error msg`) or return. -/
structure MermaidLib where
  initThrows : Nat → Bool
  parse : String → Except String Bool
  render : String → String → Except String String

/-- `initializeMermaid` (src/main.ts lines 22-51): return early when the
flag is set, otherwise invoke `mermaid.initialize`; on success set the
flag, on a thrown error leave it false (the catch only logs). -/
def initializeMermaid (lib : MermaidLib) (s : PluginState) : PluginState :=
  if s.mermaidInitialized then s
  else if lib.initThrows s.initCalls then
    { s with initCalls := s.initCalls + 1 }
  else
    { mermaidInitialized := true, initCalls := s.initCalls + 1 }

/-- JavaScript `error.message || "Unknown error"`. -/
def jsMsg (e : String) : String :=
  if e = "" then "Unknown error" else e

/-- The fixed per-block message shown when the library never initialized. -/
def initFailureBlock : Elem :=
  .node "div" "mermaid-error" "Failed to initialize Mermaid library" []

/-- The empty diagram container created before any validation happens. -/
def emptyContainer : Elem :=
  .node "div" "mermaid-container" "" []

/-- The error display built in the catch block of `renderMermaid`:
a `mermaid-error` div holding the message line and a `pre > code`
with the original raw source text. -/
def errorBlock (source msg : String) : Elem :=
  .node "div" "mermaid-error" ""
    [ .node "div" "mermaid-error-message" ("Mermaid Error: " ++ msg) []
    , .node "pre" "" "" [ .node "code" "language-mermaid" source [] ] ]

/-- The single fragment inserted by `container.innerHTML = svg`:
one `svg` node carrying the markup string returned by `mermaid.render`. -/
def svgFragment (svg : String) : Elem :=
  .node "svg" "" svg []

/-- The export button appended by `addExportFunctionality`. -/
def exportButton : Elem :=
  .node "button" "mermaid-export-btn" "💾 Export" []

/-- The diagram container after a successful render: the SVG fragment
plus the export button. -/
def successContainer (svg : String) : Elem :=
  .node "div" "mermaid-container" "" [svgFragment svg, exportButton]

/-- Result of one `renderMermaid` call: the elements appended under the
output element `el`, in order; whether `mermaid.parse` and
`mermaid.render` were invoked; the plugin state afterwards. -/
structure RenderResult where
  children : List Elem
  parseCalled : Bool
  renderCalled : Bool
  state : PluginState

/-- `renderMermaid` (src/main.ts lines 53-127).  `freshId` stands for the
generated time-and-random identifier.  Re-attempts initialization when
the flag is down; shows the fixed message when it is still down; then,
in the try block: create the container, trim, reject empty input, parse,
render, insert the markup, attach the export button; the catch appends
the error block with the raw source next to the already-created
container. -/
def renderMermaid (lib : MermaidLib) (freshId source : String)
    (s : PluginState) : RenderResult :=
  let s1 := initializeMermaid lib s
  if ¬ s1.mermaidInitialized then
    { children := [initFailureBlock], parseCalled := false
      renderCalled := false, state := s1 }
  else
    let cleanSource := jsTrim source
    if cleanSource = "" then
      { children := [emptyContainer, errorBlock source "Empty Mermaid diagram"]
        parseCalled := false, renderCalled := false, state := s1 }
    else
      match lib.parse cleanSource with
      | .error e =>
        { children := [emptyContainer, errorBlock source (jsMsg e)]
          parseCalled := true, renderCalled := false, state := s1 }
      | .ok false =>
        { children := [emptyContainer, errorBlock source "Invalid Mermaid syntax"]
          parseCalled := true, renderCalled := false, state := s1 }
      | .ok true =>
        match lib.render freshId cleanSource with
        | .error e =>
          { children := [emptyContainer, errorBlock source (jsMsg e)]
            parseCalled := true, renderCalled := true, state := s1 }
        | .ok svg =>
          { children := [successContainer svg]
            parseCalled := true, renderCalled := true, state := s1 }

/-- The message of the exception thrown (if any) inside the try block of
`renderMermaid`, assuming initialization already succeeded: empty input,
a `parse` throw, a falsy parse result, or a `render` throw. -/
def renderFailureMsg (lib : MermaidLib) (freshId source : String) : Option String :=
  let cleanSource := jsTrim source
  if cleanSource = "" then some "Empty Mermaid diagram"
  else
    match lib.parse cleanSource with
    | .error e => some (jsMsg e)
    | .ok false => some "Invalid Mermaid syntax"
    | .ok true =>
      match lib.render freshId cleanSource with
      | .error e => some (jsMsg e)
      | .ok _ => none

/-- Characters of a path before its last `/`:
`currentFilePath.substring(0, currentFilePath.lastIndexOf("/"))`. -/
def beforeLastSlash (l : List Char) : List Char :=
  ((l.reverse.dropWhile (fun c => c ≠ '/')).drop 1).reverse

/-- The directory part computed by both export paths:
the path up to its last `/` when it contains one, else `""`. -/
def currentDirOf (path : String) : String :=
  if containsChar path '/' then String.mk (beforeLastSlash path.toList) else ""

/-- `currentDir ? currentDir + "/" + fileName : fileName` — the JavaScript
conditional treats the empty directory string as falsy. -/
def joinPath (dir fileName : String) : String :=
  if dir ≠ "" then dir ++ "/" ++ fileName else fileName

/-- The generated vector-export file name, `now` standing for `Date.now()`. -/
def svgFileName (now : Nat) : String :=
  "mermaid-diagram-" ++ toString now ++ ".svg"

/-- The generated raster-export file name. -/
def pngFileName (now : Nat) : String :=
  "mermaid-diagram-" ++ toString now ++ ".png"

/-- `cloneNode(true)` on a detached pure value: a structurally identical
copy. -/
def cloneNode (e : Elem) : Elem := e

/-- The XML declaration prefixed to every vector export. -/
def xmlDecl : String := "<?xml version=\"1.0\" encoding=\"UTF-8\"?>"

/-- The document-type declaration prefixed to every vector export. -/
def svgDoctype : String :=
  "<!DOCTYPE svg PUBLIC \"-//W3C//DTD SVG 1.1//EN\" \"http://www.w3.org/Graphics/SVG/1.1/DTD/svg11.dtd\">"

/-- Environment of one `exportAsSVG` call: the result of
`container.querySelector("svg")`, the `XMLSerializer`, the clock, and
the outcome of `vault.create`. -/
structure SVGExportEnv where
  svgInContainer : Option Elem
  serialize : Elem → String
  now : Nat
  create : String → String → Except String Unit

/-- Outcome of one `exportAsSVG` call: the `(path, contents)` argument
handed to `vault.create` (none when the call was never reached), the
transient notice shown, and the plugin state afterwards. -/
structure SVGExportResult where
  createArg : Option (String × String)
  notice : String
  state : PluginState

/-- `exportAsSVG` (src/main.ts lines 247-288): find the rendered SVG,
clone and serialize it, prepend the XML and DOCTYPE declarations, derive
the destination from the document's directory, write through the vault;
every failure is caught and surfaced as a notice. -/
def exportAsSVG (env : SVGExportEnv) (sourcePath : String)
    (s : PluginState) : SVGExportResult :=
  match env.svgInContainer with
  | none =>
    { createArg := none
      notice := "Failed to export SVG: No SVG element found", state := s }
  | some svgElement =>
    let clonedSvg := cloneNode svgElement
    let svgString := env.serialize clonedSvg
    let fullSvgString := xmlDecl ++ "\n" ++ svgDoctype ++ "\n" ++ svgString
    let currentDir := currentDirOf sourcePath
    let fileName := svgFileName env.now
    let filePath := joinPath currentDir fileName
    match env.create filePath fullSvgString with
    | .error e =>
      { createArg := some (filePath, fullSvgString)
        notice := "Failed to export SVG: " ++ e, state := s }
    | .ok _ =>
      { createArg := some (filePath, fullSvgString)
        notice := "SVG exported as " ++ fileName, state := s }

/-- JavaScript `x || y` on numbers where `x` is falsy exactly when zero. -/
def jsOrNat (x y : Nat) : Nat := if x = 0 then y else x

/-- `parseInt(...) || y`: `none` models a `NaN` parse (falsy). -/
def parsedOr (p : Option Nat) (y : Nat) : Nat :=
  match p with
  | none => y
  | some x => jsOrNat x y

/-- Measurements of the rendered SVG element as read during raster
export: `parseInt(getComputedStyle(..).width)` (none for NaN) and
`clientWidth`, likewise for height. -/
structure SvgMeasure where
  computedWidth : Option Nat
  computedHeight : Option Nat
  clientWidth : Nat
  clientHeight : Nat
deriving DecidableEq, Repr

/-- `parseInt(computedStyle.width) || svgElement.clientWidth || 800`. -/
def measuredWidth (m : SvgMeasure) : Nat :=
  parsedOr m.computedWidth (jsOrNat m.clientWidth 800)

/-- `parseInt(computedStyle.height) || svgElement.clientHeight || 600`. -/
def measuredHeight (m : SvgMeasure) : Nat :=
  parsedOr m.computedHeight (jsOrNat m.clientHeight 600)

/-- A recorded 2D-context operation, coordinates in user space. -/
inductive CanvasOp where
  | fillRect (style : String) (x y w h : Nat)
  | drawImage (x y w h : Nat)
deriving DecidableEq, Repr

/-- The off-screen canvas: device-pixel dimensions, the transform set by
`ctx.scale`, and the recorded operations in order. -/
structure Canvas where
  width : Nat
  height : Nat
  scaleFactor : Nat
  ops : List CanvasOp
deriving DecidableEq, Repr

/-- Whether a user-space rectangle, under the scale transform, covers the
device pixel `(x, y)`. -/
def coversDev (scale x0 y0 w h x y : Nat) : Bool :=
  scale * x0 ≤ x && x < scale * (x0 + w) &&
  scale * y0 ≤ y && y < scale * (y0 + h)

/-- Colour of a device pixel after the recorded operations. -/
inductive Pixel where
  | transparent
  | fill (style : String)
  | image
deriving DecidableEq, Repr

/-- Pixel semantics of the recorded operations: a later fill overwrites;
`drawImage` overwrites only where the decoded image is opaque
(`opaqueAt`), elsewhere it leaves the pixel unchanged. -/
def renderPixel (scale : Nat) (opaqueAt : Nat → Nat → Bool)
    (ops : List CanvasOp) (x y : Nat) : Pixel :=
  ops.foldl
    (fun acc op =>
      match op with
      | .fillRect style x0 y0 w h =>
        if coversDev scale x0 y0 w h x y then .fill style else acc
      | .drawImage x0 y0 w h =>
        if coversDev scale x0 y0 w h x y && opaqueAt x y then .image else acc)
    .transparent

/-- Environment of one `exportAsPNG` call. -/
structure PNGExportEnv where
  svgInContainer : Option SvgMeasure
  ctx2dAvailable : Bool
  imageLoadOk : Bool
  imgOpaqueAt : Nat → Nat → Bool
  blobOk : Bool
  createBinary : String → Except String Unit
  now : Nat

/-- Outcome of one `exportAsPNG` call.  `escaped` carries the rejection
of the promise the function returns from inside its try block: such a
failure is NOT caught by the function's catch (the promise is returned,
not awaited), so it propagates to the caller with no notice shown. -/
structure PNGOutcome where
  escaped : Option String
  notice : Option String
  createBinaryArgPath : Option String
  canvas : Option Canvas
  state : PluginState

/-- The canvas after the image-load callback has run: dimensions twice
the measured size, `ctx.scale(2, 2)`, then the white background fill and
the image draw, both over the full measured rectangle in user space. -/
def drawnCanvas (m : SvgMeasure) : Canvas :=
  { width := measuredWidth m * 2, height := measuredHeight m * 2
    scaleFactor := 2
    ops := [ .fillRect "white" 0 0 (measuredWidth m) (measuredHeight m)
           , .drawImage 0 0 (measuredWidth m) (measuredHeight m) ] }

/-- `exportAsPNG` (src/main.ts lines 290-395).  The synchronous phase
(missing SVG, unavailable 2D context) throws inside the try block and is
caught, producing a notice.  The function then returns a promise; a
failed image decode, a null blob, or a `vault.createBinary` throw reject
that promise, and because the promise is returned rather than awaited
these failures escape the function uncaught (`escaped`). -/
def exportAsPNG (env : PNGExportEnv) (sourcePath : String)
    (s : PluginState) : PNGOutcome :=
  match env.svgInContainer with
  | none =>
    { escaped := none, notice := some "Failed to export PNG: No SVG element found"
      createBinaryArgPath := none, canvas := none, state := s }
  | some m =>
    let currentDir := currentDirOf sourcePath
    if ¬ env.ctx2dAvailable then
      { escaped := none, notice := some "Failed to export PNG: Could not get canvas context"
        createBinaryArgPath := none, canvas := none, state := s }
    else
      let width := measuredWidth m
      let height := measuredHeight m
      let canvas0 : Canvas :=
        { width := width * 2, height := height * 2, scaleFactor := 2, ops := [] }
      if ¬ env.imageLoadOk then
        { escaped := some "Failed to load SVG image", notice := none
          createBinaryArgPath := none, canvas := some canvas0, state := s }
      else
        let canvas1 := drawnCanvas m
        if ¬ env.blobOk then
          { escaped := some "Failed to create PNG blob", notice := none
            createBinaryArgPath := none, canvas := some canvas1, state := s }
        else
          let fileName := pngFileName env.now
          let filePath := joinPath currentDir fileName
          match env.createBinary filePath with
          | .error e =>
            { escaped := some e, notice := none
              createBinaryArgPath := some filePath, canvas := some canvas1, state := s }
          | .ok _ =>
            { escaped := none, notice := some ("PNG exported as " ++ fileName)
              createBinaryArgPath := some filePath, canvas := some canvas1, state := s }

/-- The destination path exactly as the claim words it: the document
path up to its last `/`, joined with `/` and the file name, whenever the
document path contains a `/`; just the file name otherwise. -/
def claimDestPath (docPath fileName : String) : String :=
  if containsChar docPath '/' then
    String.mk (beforeLastSlash docPath.toList) ++ "/" ++ fileName
  else fileName

/-- The destination path as the amended claim words it: the directory
part joined with `/` and the file name when the document path contains a
`/` and the part before the last `/` is non-empty; just the file name
when the path has no `/` or the part before its last `/` is empty. -/
def amendedDestPath (docPath fileName : String) : String :=
  if containsChar docPath '/' ∧ String.mk (beforeLastSlash docPath.toList) ≠ "" then
    String.mk (beforeLastSlash docPath.toList) ++ "/" ++ fileName
  else fileName

/-- The text of the `code` child inside the `pre` of an error display:
where the original raw source is kept. -/
def errorBlockSourceText (e : Elem) : Option String :=
  match e.children with
  | _ :: pre :: _ =>
    match pre.children with
    | code :: _ => some code.text
    | [] => none
  | _ => none

/-- A library world where every call succeeds. -/
def libOk : MermaidLib :=
  { initThrows := fun _ => false
    parse := fun _ => .ok true
    render := fun _ _ => .ok "<svg></svg>" }

/-- A library world whose first `initialize` invocation throws and whose
later invocations succeed. -/
def libInitFlaky : MermaidLib :=
  { libOk with initThrows := fun n => n == 0 }

/-- A library world where every `initialize` invocation throws. -/
def libInitAlwaysFails : MermaidLib :=
  { libOk with initThrows := fun _ => true }

/-- A library world where `parse` reports invalid syntax by throwing. -/
def libParseThrows : MermaidLib :=
  { libOk with parse := fun _ => .error "Parse error on line 1" }

/-- A rendered SVG element used as a concrete export source. -/
def svgElemW : Elem := .node "svg" "" "<rect/>" []

/-- A concrete vector-export environment: SVG present, serializer
returning the element's markup text, clock at 0, write succeeding. -/
def svgEnvOk : SVGExportEnv :=
  { svgInContainer := some svgElemW
    serialize := fun e => e.text
    now := 0
    create := fun _ _ => .ok () }

/-- Concrete measurements: computed style 100 by 50. -/
def measureW : SvgMeasure :=
  { computedWidth := some 100, computedHeight := some 50
    clientWidth := 0, clientHeight := 0 }

/-- A concrete raster-export environment where everything succeeds and
the decoded image is nowhere opaque. -/
def pngEnvOk : PNGExportEnv :=
  { svgInContainer := some measureW
    ctx2dAvailable := true, imageLoadOk := true
    imgOpaqueAt := fun _ _ => false
    blobOk := true, createBinary := fun _ => .ok (), now := 0 }

/-- A concrete raster-export environment where the SVG image fails to
decode (`img.onerror` fires). -/
def pngEnvImgFail : PNGExportEnv :=
  { pngEnvOk with imageLoadOk := false }

/-- A concrete raster-export environment where the storage write throws. -/
def pngEnvCreateFail : PNGExportEnv :=
  { pngEnvOk with createBinary := fun _ => .error "File already exists" }

theorem initializeMermaid_done (lib : MermaidLib) (s : PluginState)
    (h : s.mermaidInitialized = true) : initializeMermaid lib s = s := by
  unfold initializeMermaid
  simp [h]

theorem renderMermaid_failure_children (lib : MermaidLib)
    (freshId source msg : String) (s : PluginState)
    (hs : s.mermaidInitialized = true)
    (h : renderFailureMsg lib freshId source = some msg) :
    (renderMermaid lib freshId source s).children
      = [emptyContainer, errorBlock source msg] := by
  unfold renderMermaid
  rw [initializeMermaid_done lib s hs]
  unfold renderFailureMsg at h
  simp only [hs, not_true_eq_false, if_false, Bool.not_true]
  by_cases he : jsTrim source = ""
  · simp only [he, if_true, if_pos] at h ⊢
    simp at h
    rw [h]
  · simp only [he, if_false, if_neg] at h ⊢
    cases hp : lib.parse (jsTrim source) with
    | error e =>
      simp only [hp] at h ⊢
      simp at h
      rw [h]
    | ok b =>
      cases b with
      | false =>
        simp only [hp] at h ⊢
        simp at h
        rw [h]
      | true =>
        simp only [hp] at h ⊢
        cases hr : lib.render freshId (jsTrim source) with
        | error e =>
          simp only [hr] at h ⊢
          simp at h
          rw [h]
        | ok svg =>
          simp only [hr] at h
          exact absurd h (by simp)

/-- C5: library initialization is idempotent — starting from an
uninitialized state, when the configuration call succeeds, calling
`initializeMermaid` twice performs exactly one configuration call, the
ready flag becomes and remains true, the second call is a no-op, and
any call made after success leaves the state untouched. -/
theorem initializeMermaid_idempotent (lib : MermaidLib) (s t : PluginState)
    (h0 : s.mermaidInitialized = false)
    (h1 : lib.initThrows s.initCalls = false)
    (ht : t.mermaidInitialized = true) :
    (initializeMermaid lib s).mermaidInitialized = true ∧
    initializeMermaid lib (initializeMermaid lib s) = initializeMermaid lib s ∧
    (initializeMermaid lib s).initCalls = s.initCalls + 1 ∧
    (initializeMermaid lib (initializeMermaid lib s)).initCalls = s.initCalls + 1 ∧
    initializeMermaid lib t = t := by
  unfold initializeMermaid
  simp [h0, h1, ht]

theorem initializeMermaid_idempotent_witness :
    (initializeMermaid libOk ⟨false, 0⟩).mermaidInitialized = true ∧
    initializeMermaid libOk (initializeMermaid libOk ⟨false, 0⟩)
      = initializeMermaid libOk ⟨false, 0⟩ ∧
    (initializeMermaid libOk ⟨false, 0⟩).initCalls = 0 + 1 ∧
    (initializeMermaid libOk (initializeMermaid libOk ⟨false, 0⟩)).initCalls = 0 + 1 ∧
    initializeMermaid libOk ⟨true, 5⟩ = ⟨true, 5⟩ :=
  initializeMermaid_idempotent libOk ⟨false, 0⟩ ⟨true, 5⟩ rfl rfl rfl

/-- C3: for input whose trimmed form is empty, the render handler
appends an error-styled block under the output element and never
invokes the library's render step. -/
theorem renderMermaid_blank_input (lib : MermaidLib) (freshId source : String)
    (s : PluginState) (h : jsTrim source = "") :
    ((renderMermaid lib freshId source s).children.any
        (fun c => c.cls == "mermaid-error")) = true ∧
    (renderMermaid lib freshId source s).renderCalled = false := by
  unfold renderMermaid
  by_cases hi : (initializeMermaid lib s).mermaidInitialized = true
  · simp only [hi, Bool.not_true, if_false, h, if_true, not_true_eq_false]
    exact ⟨rfl, trivial⟩
  · simp only [Bool.not_eq_true] at hi
    simp only [hi, Bool.not_false, if_true]
    exact ⟨rfl, rfl⟩

theorem renderMermaid_blank_input_witness :
    ((renderMermaid libOk "id" "  \n " ⟨false, 0⟩).children.any
        (fun c => c.cls == "mermaid-error")) = true ∧
    (renderMermaid libOk "id" "  \n " ⟨false, 0⟩).renderCalled = false :=
  renderMermaid_blank_input libOk "id" "  \n " ⟨false, 0⟩ (by decide)

/-- C2 counterexample: the claim says a failed initialization is
terminal — no later render attempt can recover.  In the code each render
attempt with the flag down re-runs `initializeMermaid`; in a world where
the first configuration call throws and the second succeeds, the render
attempt after the failed bootstrap initializes the library and renders a
diagram instead of the fixed failure message. -/
theorem renderMermaid_recovers_after_failed_init :
    (initializeMermaid libInitFlaky ⟨false, 0⟩).mermaidInitialized = false ∧
    (renderMermaid libInitFlaky "id" "graph TD"
        (initializeMermaid libInitFlaky ⟨false, 0⟩)).state.mermaidInitialized = true ∧
    (renderMermaid libInitFlaky "id" "graph TD"
        (initializeMermaid libInitFlaky ⟨false, 0⟩)).children
      = [successContainer "<svg></svg>"] ∧
    (renderMermaid libInitFlaky "id" "graph TD"
        (initializeMermaid libInitFlaky ⟨false, 0⟩)).renderCalled = true ∧
    (renderMermaid libInitFlaky "id" "graph TD"
        (initializeMermaid libInitFlaky ⟨false, 0⟩)).children
      ≠ [initFailureBlock] := by
  refine ⟨rfl, rfl, rfl, rfl, ?_⟩
  intro hcontra
  have hcls : ("mermaid-container" : String) = "mermaid-error" :=
    congrArg (fun l => (l.headD emptyContainer).cls) hcontra
  exact absurd hcls (by decide)

/-- C2 as amended: if library initialization fails and every re-attempted
configuration call also throws, the readiness flag stays false and every
render attempt shows the fixed "library failed to initialize" message
and never reaches the render step; recovery is possible only because
each render attempt with the flag down re-runs initialization, which the
original claim ruled out. -/
theorem renderMermaid_initFailure_terminal (lib : MermaidLib)
    (freshId source : String) (s : PluginState)
    (hall : ∀ n, lib.initThrows n = true)
    (hs : s.mermaidInitialized = false) :
    (renderMermaid lib freshId source s).children = [initFailureBlock] ∧
    (renderMermaid lib freshId source s).renderCalled = false ∧
    (renderMermaid lib freshId source s).state.mermaidInitialized = false := by
  unfold renderMermaid initializeMermaid
  simp [hs, hall s.initCalls]

theorem renderMermaid_initFailure_terminal_witness :
    (renderMermaid libInitAlwaysFails "id" "graph TD" ⟨false, 0⟩).children
      = [initFailureBlock] ∧
    (renderMermaid libInitAlwaysFails "id" "graph TD" ⟨false, 0⟩).renderCalled = false ∧
    (renderMermaid libInitAlwaysFails "id" "graph TD" ⟨false, 0⟩).state.mermaidInitialized
      = false :=
  renderMermaid_initFailure_terminal libInitAlwaysFails "id" "graph TD" ⟨false, 0⟩
    (fun _ => rfl) rfl

/-- C4: for any per-render failure after successful initialization
(empty input, a parse throw, a falsy parse result, or a render throw),
the error block appended under the output element carries the original
untrimmed input text byte-for-byte in its `pre > code` child, next to
the error message. -/
theorem renderMermaid_failure_shows_raw_source (lib : MermaidLib)
    (freshId source msg : String) (s : PluginState)
    (hs : s.mermaidInitialized = true)
    (h : renderFailureMsg lib freshId source = some msg) :
    (renderMermaid lib freshId source s).children
      = [emptyContainer, errorBlock source msg] ∧
    errorBlockSourceText (errorBlock source msg) = some source :=
  ⟨renderMermaid_failure_children lib freshId source msg s hs h, rfl⟩

theorem renderMermaid_failure_shows_raw_source_witness :
    (renderMermaid libParseThrows "id" " graph TD( " ⟨true, 1⟩).children
      = [emptyContainer, errorBlock " graph TD( " "Parse error on line 1"] ∧
    errorBlockSourceText (errorBlock " graph TD( " "Parse error on line 1")
      = some " graph TD( " :=
  renderMermaid_failure_shows_raw_source libParseThrows "id" " graph TD( "
    "Parse error on line 1" ⟨true, 1⟩ rfl (by decide)

/-- C10: the render failure path is not atomic with respect to the
output element — on any per-render failure after initialization, the
empty `mermaid-container` created before validation stays attached
under the output element in addition to the appended error block; the
output element is not restored to holding the error block alone. -/
theorem renderMermaid_failure_keeps_container (lib : MermaidLib)
    (freshId source msg : String) (s : PluginState)
    (hs : s.mermaidInitialized = true)
    (h : renderFailureMsg lib freshId source = some msg) :
    (renderMermaid lib freshId source s).children
      = [emptyContainer, errorBlock source msg] ∧
    emptyContainer.cls = "mermaid-container" ∧
    emptyContainer.children = [] ∧
    (renderMermaid lib freshId source s).children ≠ [errorBlock source msg] := by
  have hc := renderMermaid_failure_children lib freshId source msg s hs h
  refine ⟨hc, rfl, rfl, ?_⟩
  intro hcontra
  rw [hc] at hcontra
  have hlen : (2 : Nat) = 1 := congrArg List.length hcontra
  exact absurd hlen (by decide)

theorem renderMermaid_failure_keeps_container_witness :
    (renderMermaid libOk "id" "   " ⟨true, 1⟩).children
      = [emptyContainer, errorBlock "   " "Empty Mermaid diagram"] ∧
    emptyContainer.cls = "mermaid-container" ∧
    emptyContainer.children = [] ∧
    (renderMermaid libOk "id" "   " ⟨true, 1⟩).children
      ≠ [errorBlock "   " "Empty Mermaid diagram"] :=
  renderMermaid_failure_keeps_container libOk "id" "   "
    "Empty Mermaid diagram" ⟨true, 1⟩ rfl (by decide)

/-- C9: for non-empty input that the initialized library parses as valid
and renders successfully, the handler attaches exactly one container
holding exactly one SVG fragment under the output element, and nothing
under the output element carries the error class. -/
theorem renderMermaid_valid_single_fragment (lib : MermaidLib)
    (freshId source svg : String) (s : PluginState)
    (hs : s.mermaidInitialized = true)
    (hne : jsTrim source ≠ "")
    (hp : lib.parse (jsTrim source) = .ok true)
    (hr : lib.render freshId (jsTrim source) = .ok svg) :
    (renderMermaid lib freshId source s).children = [successContainer svg] ∧
    ((successContainer svg).children.countP (fun c => c.tag == "svg")) = 1 ∧
    elemsContainErrorCls (renderMermaid lib freshId source s).children = false := by
  have hc : (renderMermaid lib freshId source s).children = [successContainer svg] := by
    unfold renderMermaid
    rw [initializeMermaid_done lib s hs]
    simp only [hs, not_true_eq_false, if_false, Bool.not_true, hne, hp, hr, if_neg]
  refine ⟨hc, rfl, ?_⟩
  rw [hc]
  rfl

theorem renderMermaid_valid_single_fragment_witness :
    (renderMermaid libOk "id" "graph TD" ⟨true, 1⟩).children
      = [successContainer "<svg></svg>"] ∧
    ((successContainer "<svg></svg>").children.countP (fun c => c.tag == "svg")) = 1 ∧
    elemsContainErrorCls (renderMermaid libOk "id" "graph TD" ⟨true, 1⟩).children
      = false :=
  renderMermaid_valid_single_fragment libOk "id" "graph TD" "<svg></svg>"
    ⟨true, 1⟩ rfl (by decide) rfl rfl

theorem joinPath_currentDirOf (sp n : String) :
    joinPath (currentDirOf sp) n = amendedDestPath sp n := by
  unfold joinPath currentDirOf amendedDestPath
  by_cases h : containsChar sp '/' = true
  · simp only [h, if_true]
    by_cases h2 : String.mk (beforeLastSlash sp.toList) = ""
    · simp [h2]
    · simp [h2]
  · simp only [Bool.not_eq_true] at h
    simp [h]

/-- C6: whenever the vector export finds a rendered SVG element, the
string it hands to the storage write is exactly the XML declaration,
then the document-type declaration, then the serialized markup of the
cloned SVG element, in that order. -/
theorem exportAsSVG_svg_string_structure (env : SVGExportEnv)
    (sourcePath : String) (s : PluginState) (e : Elem)
    (h : env.svgInContainer = some e) :
    (exportAsSVG env sourcePath s).createArg.map Prod.snd =
      some (xmlDecl ++ "\n" ++ svgDoctype ++ "\n" ++ env.serialize (cloneNode e)) := by
  unfold exportAsSVG
  simp only [h]
  split <;> rfl

theorem exportAsSVG_svg_string_structure_witness :
    (exportAsSVG svgEnvOk "a/b.md" ⟨true, 1⟩).createArg.map Prod.snd =
      some (xmlDecl ++ "\n" ++ svgDoctype ++ "\n"
        ++ svgEnvOk.serialize (cloneNode svgElemW)) :=
  exportAsSVG_svg_string_structure svgEnvOk "a/b.md" ⟨true, 1⟩ svgElemW rfl

/-- C8 counterexample: for the document path "/x.md" — which contains a
`/` — the claim's destination is the directory part (empty) joined with
`/` and the file name, i.e. "/mermaid-diagram-0.svg", but the code
treats the empty directory string as falsy and writes to just the file
name. -/
theorem exportDestPath_empty_dir_counterexample :
    (exportAsSVG svgEnvOk "/x.md" ⟨true, 1⟩).createArg.map Prod.fst
      = some "mermaid-diagram-0.svg" ∧
    claimDestPath "/x.md" (svgFileName 0) = "/mermaid-diagram-0.svg" ∧
    ("mermaid-diagram-0.svg" : String) ≠ "/mermaid-diagram-0.svg" :=
  ⟨by decide, by decide, by decide⟩

/-- C8 as amended: for both export kinds the destination path equals the
document's directory (the path up to its last `/`) joined with `/` and
the generated timestamp-based file name, except that when the document
path contains no `/` — or the part before its last `/` is empty — the
destination is just the generated file name. -/
theorem export_destPath_amended (envS : SVGExportEnv) (envP : PNGExportEnv)
    (sourcePath : String) (s s2 : PluginState) (e : Elem) (m : SvgMeasure)
    (h1 : envS.svgInContainer = some e)
    (h2 : envP.svgInContainer = some m)
    (h3 : envP.ctx2dAvailable = true)
    (h4 : envP.imageLoadOk = true)
    (h5 : envP.blobOk = true) :
    (exportAsSVG envS sourcePath s).createArg.map Prod.fst =
      some (amendedDestPath sourcePath (svgFileName envS.now)) ∧
    (exportAsPNG envP sourcePath s2).createBinaryArgPath =
      some (amendedDestPath sourcePath (pngFileName envP.now)) := by
  constructor
  · unfold exportAsSVG
    rw [← joinPath_currentDirOf]
    simp only [h1]
    split <;> rfl
  · unfold exportAsPNG
    rw [← joinPath_currentDirOf]
    simp only [h2, h3, h4, h5]
    split
    · exact absurd trivial (by assumption)
    · split <;> rfl

theorem export_destPath_amended_witness :
    (exportAsSVG svgEnvOk "notes/x.md" ⟨true, 1⟩).createArg.map Prod.fst =
      some (amendedDestPath "notes/x.md" (svgFileName svgEnvOk.now)) ∧
    (exportAsPNG pngEnvOk "notes/x.md" ⟨true, 1⟩).createBinaryArgPath =
      some (amendedDestPath "notes/x.md" (pngFileName pngEnvOk.now)) :=
  export_destPath_amended svgEnvOk pngEnvOk "notes/x.md" ⟨true, 1⟩ ⟨true, 1⟩
    svgElemW measureW rfl rfl rfl rfl rfl

/-- C7: when the raster export finds the rendered SVG, obtains a 2D
context and the image decodes, the canvas is exactly twice the measured
width and height of the source visual, and every device pixel inside
the canvas that the drawn source visual does not cover opaquely shows
the white background fill. -/
theorem exportAsPNG_dims_and_white_background (env : PNGExportEnv)
    (sourcePath : String) (s : PluginState) (m : SvgMeasure) (x y : Nat)
    (hm : env.svgInContainer = some m)
    (hctx : env.ctx2dAvailable = true)
    (himg : env.imageLoadOk = true)
    (hx : x < measuredWidth m * 2) (hy : y < measuredHeight m * 2)
    (hop : env.imgOpaqueAt x y = false) :
    (exportAsPNG env sourcePath s).canvas = some (drawnCanvas m) ∧
    (drawnCanvas m).width = measuredWidth m * 2 ∧
    (drawnCanvas m).height = measuredHeight m * 2 ∧
    renderPixel 2 env.imgOpaqueAt (drawnCanvas m).ops x y = .fill "white" := by
  refine ⟨?_, rfl, rfl, ?_⟩
  · unfold exportAsPNG
    simp only [hm, hctx, himg]
    repeat' split
    all_goals first | rfl | exact absurd trivial (by assumption)
  · have hcov : coversDev 2 0 0 (measuredWidth m) (measuredHeight m) x y = true := by
      unfold coversDev
      simp only [Bool.and_eq_true, decide_eq_true_eq]
      omega
    unfold renderPixel drawnCanvas
    simp [hcov, hop]

theorem exportAsPNG_dims_and_white_background_witness :
    (exportAsPNG pngEnvOk "notes/a.md" ⟨true, 1⟩).canvas = some (drawnCanvas measureW) ∧
    (drawnCanvas measureW).width = measuredWidth measureW * 2 ∧
    (drawnCanvas measureW).height = measuredHeight measureW * 2 ∧
    renderPixel 2 pngEnvOk.imgOpaqueAt (drawnCanvas measureW).ops 0 0 = .fill "white" :=
  exportAsPNG_dims_and_white_background pngEnvOk "notes/a.md" ⟨true, 1⟩ measureW 0 0
    rfl rfl rfl (by decide) (by decide) rfl

/-- C1: evaluation of the code at the failing inputs.  The raster
export's try block returns the promise instead of awaiting it, so an
image decode failure and a storage write failure reject the promise the
caller receives: the failure escapes `exportAsPNG` uncaught and no
transient notice is shown, contradicting the claim that every export
failure is caught inside the export function and surfaced as a
notification (the plugin state is indeed left unchanged). -/
theorem exportAsPNG_async_failure_escapes_uncaught :
    (exportAsPNG pngEnvImgFail "notes/a.md" ⟨true, 1⟩).escaped
      = some "Failed to load SVG image" ∧
    (exportAsPNG pngEnvImgFail "notes/a.md" ⟨true, 1⟩).notice = none ∧
    (exportAsPNG pngEnvImgFail "notes/a.md" ⟨true, 1⟩).state = ⟨true, 1⟩ ∧
    (exportAsPNG pngEnvCreateFail "notes/a.md" ⟨true, 1⟩).escaped
      = some "File already exists" ∧
    (exportAsPNG pngEnvCreateFail "notes/a.md" ⟨true, 1⟩).notice = none ∧
    (exportAsPNG pngEnvCreateFail "notes/a.md" ⟨true, 1⟩).state = ⟨true, 1⟩ :=
  ⟨rfl, rfl, rfl, rfl, rfl, rfl⟩
